import Mathlib

/-!
Verification of the PayChangu payment API client (`payment.py`).

The client is a thin wrapper around an HTTP payment API.  We embed it
shallowly: JSON values become an inductive type, the `requests` library
becomes an oracle (`Network`) supplied as an argument, the ambient clock and
random source feeding reference generation become explicit `timestamp` /
`random_num` arguments, and exceptions that can escape a method become
`Except` results.  Each Python method of `PayChanguAPI` is translated to a
Lean function of the same name.
-/

namespace PayChangu

/-- JSON values, as produced by parsing a response body and as used in
request payloads and in the result dictionaries the client returns.
Python `None` is `null`, Python dicts are `obj` (insertion-ordered
association lists, as in CPython). -/
inductive Json where
  | null : Json
  | bool : Bool → Json
  | num : Int → Json
  | str : String → Json
  | arr : List Json → Json
  | obj : List (String × Json) → Json
deriving Repr, BEq

/-- Key lookup in a JSON object: `some v` when the receiver is an object
with key `k`, `none` otherwise. -/
def Json.lookup : Json → String → Option Json
  | .obj kvs, k => kvs.lookup k
  | _, _ => none

/-- The Python type name of a JSON value, as it appears in an
`AttributeError` raised on it. -/
def Json.typeName : Json → String
  | .null => "NoneType"
  | .bool _ => "bool"
  | .num _ => "int"
  | .str _ => "str"
  | .arr _ => "list"
  | .obj _ => "dict"

/-- An exception that can escape a client method: the `ValueError` raised
by `_make_request` on an unsupported HTTP method, or the `AttributeError`
raised by calling `.get` on a parsed-body value that is not a mapping
(payload: the receiver's Python type name).  The `try/except` in the
source wraps only the `_make_request` body, so both escape to the caller. -/
inductive PyExn where
  | valueError : String → PyExn
  | attributeError : String → PyExn
deriving Repr, BEq

/-- Python `d.get(k, default)`: the value at `k` (or the default) when the
receiver is a mapping; on any other receiver — the parsed body is
arbitrary JSON — CPython raises `AttributeError`, which no handler in the
source catches. -/
def Json.getD (j : Json) (k : String) (d : Json) : Except PyExn Json :=
  match j with
  | .obj kvs => .ok ((kvs.lookup k).getD d)
  | _ => .error (.attributeError j.typeName)

/-- Python `d.get(k)`: missing keys yield `None`; non-mapping receivers
raise `AttributeError` as in `Json.getD`. -/
def Json.get (j : Json) (k : String) : Except PyExn Json :=
  j.getD k .null

/-- Python `d[k]`.  Every subscript in the source hits the result dict
built by `_make_request`, which always contains the key used, so the
total model with a `null` fallback is observationally faithful. -/
def Json.item (j : Json) (k : String) : Json :=
  (j.lookup k).getD .null

/-- Python truthiness of a JSON value (`if response["success"]:` etc.). -/
def Json.truthy : Json → Bool
  | .null => false
  | .bool b => b
  | .num n => n != 0
  | .str s => s != ""
  | .arr l => !l.isEmpty
  | .obj l => !l.isEmpty

/-- Python `v == "lit"` where `lit` is a string literal: true exactly when
`v` is that string. -/
def Json.eqStr : Json → String → Bool
  | .str s, t => s == t
  | _, _ => false

/-- Truthiness of an optional Python string (`if description:`): `None`
and the empty string are falsy. -/
def strTruthy : Option String → Bool
  | none => false
  | some s => s != ""

/-- A Python `float` as the source uses it: the only operation applied to
an amount is `str(amount)`, so the model carries just that decimal
rendering. -/
structure PyFloat where
  str : String
deriving Repr, BEq

/-- An HTTP response as observed through the `requests` response object:
its status code, its body text, and the outcome of `response.json()`
(`Except.error` carries the `JSONDecodeError` message for a non-empty
body that is not valid JSON). -/
structure HttpResponse where
  status_code : Int
  text : String
  jsonBody : Except String Json

/-- Outcome of one call to `requests.get` / `requests.post`: either an
HTTP response was received, or a `requests.RequestException` was raised
(connection error, timeout, DNS failure, ...) carrying `str(e)`. -/
inductive NetResult where
  | resp : HttpResponse → NetResult
  | exn : String → NetResult

/-- The network oracle standing for the `requests` library: what one GET
to a URL, or one POST of an optional JSON body to a URL, returns. -/
structure Network where
  get : String → NetResult
  post : String → Option Json → NetResult

/-- `self.base_url`. -/
def base_url : String := "https://api.paychangu.com"

/-- `self.headers` built by `__init__` from the API key. -/
def headers (api_key : String) : List (String × String) :=
  [("Authorization", "Bearer " ++ api_key),
   ("Content-Type", "application/json"),
   ("Accept", "application/json")]

/-- `_generate_reference`: `f"{prefix}_{timestamp}_{random_num}"` with
`timestamp = int(time.time())` and `random_num = random.randint(100000,
999999)` passed in explicitly (clock and randomness are ambient state). -/
def generate_reference (pfx : String) (timestamp : Nat) (random_num : Nat) : String :=
  pfx ++ "_" ++ timestamp.repr ++ "_" ++ random_num.repr

/-- The body of `_make_request`'s `try` block after the `requests` call,
together with its `except requests.RequestException` handler.  On a
received response the result dict is built from the status code, the
parsed body (`response.json() if response.text else {}`) and the raw
text; `response.json()` on a non-empty unparsable body raises
`requests.exceptions.JSONDecodeError`, which is a `RequestException`
(requests ≥ 2.27) and is therefore caught by the same handler as network
failures. -/
def responseEnvelope : NetResult → Json
  | .exn e =>
      .obj [("success", .bool false), ("error", .str e), ("data", .obj [])]
  | .resp r =>
      match (if r.text == "" then Except.ok (Json.obj []) else r.jsonBody) with
      | .ok body =>
          .obj [("success", .bool (r.status_code == 200 || r.status_code == 201)),
                ("status_code", .num r.status_code),
                ("data", body),
                ("raw_response", .str r.text)]
      | .error e =>
          .obj [("success", .bool false), ("error", .str e), ("data", .obj [])]

/-- `_make_request(method, endpoint, data)`.  GET and POST go to the
network and always return a result dict (exceptions are caught); any
other method raises `ValueError(f"Unsupported method: {method}")`, which
is not a `RequestException` and escapes to the caller (`Except.error`). -/
def make_request (net : Network) (method : String) (endpoint : String)
    (data : Option Json) : Except PyExn Json :=
  if method == "GET" then
    .ok (responseEnvelope (net.get (base_url ++ endpoint)))
  else if method == "POST" then
    .ok (responseEnvelope (net.post (base_url ++ endpoint) data))
  else
    .error (.valueError ("Unsupported method: " ++ method))

/-- The `payload` dict built by `create_payment` before the POST: amount
as `str(amount)`, the identity and URL fields, the generated `tx_ref`,
and the `customization` entry added exactly when `description` is truthy. -/
def payment_payload (amount : PyFloat) (currency email first_name last_name
    callback_url return_url tx_ref : String) (description : Option String) : Json :=
  let base := [("amount", Json.str amount.str),
               ("currency", Json.str currency),
               ("email", Json.str email),
               ("first_name", Json.str first_name),
               ("last_name", Json.str last_name),
               ("callback_url", Json.str callback_url),
               ("return_url", Json.str return_url),
               ("tx_ref", Json.str tx_ref)]
  if strTruthy description then
    .obj (base ++ [("customization",
      Json.obj [("title", Json.str "Payment"),
                ("description", Json.str (description.getD ""))])])
  else
    .obj base

/-- `create_payment`.  `currency` defaults to `"MWK"` and `description`
to `None` at the Python call sites.  The nested match mirrors Python's
evaluation order: `response["success"] and
response["data"].get("status") == "success"` short-circuits, so
`.get("status")` (which may raise) is only evaluated when the success
flag is truthy; each later `.get` is evaluated where the source
evaluates it, and a raised `AttributeError` escapes as `Except.error`. -/
def create_payment (net : Network) (timestamp random_num : Nat) (amount : PyFloat)
    (email first_name last_name callback_url return_url currency : String)
    (description : Option String) : Except PyExn Json :=
  let tx_ref := generate_reference "payment" timestamp random_num
  let payload := payment_payload amount currency email first_name last_name
    callback_url return_url tx_ref description
  match make_request net "POST" "/payment" (some payload) with
  | .error e => .error e
  | .ok response =>
    match (if (response.item "success").truthy then
             match (response.item "data").get "status" with
             | .error e => (.error e : Except PyExn Bool)
             | .ok s => .ok (s.eqStr "success")
           else .ok false) with
    | .error e => .error e
    | .ok cond =>
      if cond then
        match (response.item "data").getD "data" (.obj []) with
        | .error e => .error e
        | .ok checkout_data =>
          match checkout_data.get "checkout_url" with
          | .error e => .error e
          | .ok cu =>
            .ok (.obj [("success", .bool true),
                       ("checkout_url", cu),
                       ("tx_ref", .str tx_ref),
                       ("message", .str "Payment created successfully")])
      else
        match (response.item "data").getD "message" (.str "Payment creation failed") with
        | .error e => .error e
        | .ok msg =>
          .ok (.obj [("success", .bool false),
                     ("message", msg),
                     ("tx_ref", .str tx_ref)])

/-- `verify_payment(tx_ref)`.  The source calls
`response["data"].get("data", {})` twice — once for the `data` entry and
once (followed by `.get("status", "unknown")`) for the `status` entry —
so the embedding performs both calls in that order. -/
def verify_payment (net : Network) (tx_ref : String) : Except PyExn Json :=
  match make_request net "GET" ("/payment/verify/" ++ tx_ref) none with
  | .error e => .error e
  | .ok response =>
    if (response.item "success").truthy then
      match (response.item "data").getD "data" (.obj []) with
      | .error e => .error e
      | .ok d =>
        match (response.item "data").getD "data" (.obj []) with
        | .error e => .error e
        | .ok d2 =>
          match d2.getD "status" (.str "unknown") with
          | .error e => .error e
          | .ok st =>
            .ok (.obj [("success", .bool true),
                       ("data", d),
                       ("status", st)])
    else
      .ok (.obj [("success", .bool false),
                 ("message", .str "Payment verification failed")])

/-- `get_banks(currency)`: returns the Python list at `data.data` (default
`[]`) on transport success, `[]` otherwise — a bare list, not a result
dict; a non-mapping body makes the `.get` raise. -/
def get_banks (net : Network) (currency : String) : Except PyExn Json :=
  match make_request net "GET"
      ("/direct-charge/payouts/supported-banks?currency=" ++ currency) none with
  | .error e => .error e
  | .ok response =>
    if (response.item "success").truthy then
      match (response.item "data").getD "data" (.arr []) with
      | .error e => .error e
      | .ok l => .ok l
    else
      .ok (.arr [])

/-- The `payload` dict built by `create_bank_payout` before the POST. -/
def bank_payout_payload (amount : PyFloat) (bank_uuid account_name account_number
    charge_id : String) : Json :=
  .obj [("payout_method", .str "bank_transfer"),
        ("bank_uuid", .str bank_uuid),
        ("amount", .str amount.str),
        ("charge_id", .str charge_id),
        ("bank_account_name", .str account_name),
        ("bank_account_number", .str account_number)]

/-- `create_bank_payout`.  Same condition shape as `create_payment`; the
success branch reads `response["data"].get("data", {}).get("transaction",
{})` and then `.get("ref_id")` / `.get("status")` on it, any of which can
raise on a non-mapping receiver. -/
def create_bank_payout (net : Network) (timestamp random_num : Nat) (amount : PyFloat)
    (bank_uuid account_name account_number : String) : Except PyExn Json :=
  let charge_id := generate_reference "bank_payout" timestamp random_num
  let payload := bank_payout_payload amount bank_uuid account_name account_number charge_id
  match make_request net "POST" "/direct-charge/payouts/initialize" (some payload) with
  | .error e => .error e
  | .ok response =>
    match (if (response.item "success").truthy then
             match (response.item "data").get "status" with
             | .error e => (.error e : Except PyExn Bool)
             | .ok s => .ok (s.eqStr "success")
           else .ok false) with
    | .error e => .error e
    | .ok cond =>
      if cond then
        match (response.item "data").getD "data" (.obj []) with
        | .error e => .error e
        | .ok dd =>
          match dd.getD "transaction" (.obj []) with
          | .error e => .error e
          | .ok transaction =>
            match transaction.get "ref_id" with
            | .error e => .error e
            | .ok rid =>
              match transaction.get "status" with
              | .error e => .error e
              | .ok st =>
                .ok (.obj [("success", .bool true),
                           ("ref_id", rid),
                           ("status", st),
                           ("charge_id", .str charge_id),
                           ("message", .str "Bank payout created successfully")])
      else
        match (response.item "data").getD "message" (.str "Bank payout failed") with
        | .error e => .error e
        | .ok msg =>
          .ok (.obj [("success", .bool false),
                     ("message", msg),
                     ("charge_id", .str charge_id)])

/-- Python `str.startswith(pre)`: the character sequence of `pre` is a
prefix of the character sequence of `s` (written over `List.isPrefixOf`
rather than `String.startsWith` so that it reduces inside the kernel;
the two agree). -/
def startswith (s pre : String) : Bool :=
  pre.toList.isPrefixOf s.toList

/-- The `payload` dict built by `create_mobile_payout`, including the
hardcoded provider dispatch on the mobile number's prefix ("088" /
"+26588" → Airtel Money, otherwise TNM Mpamba). -/
def mobile_payout_payload (amount : PyFloat) (charge_id mobile_number : String) : Json :=
  let bank_uuid :=
    if startswith mobile_number "088" || startswith mobile_number "+26588" then
      "e8d5fca0-e5ac-4714-a518-484be9011326"
    else
      "5e9946ae-76ed-43f5-ad59-63e09096006a"
  .obj [("payout_method", .str "mobile_money"),
        ("bank_uuid", .str bank_uuid),
        ("amount", .str amount.str),
        ("charge_id", .str charge_id),
        ("mobile_number", .str mobile_number)]

/-- `create_mobile_payout`.  Mirrors `create_bank_payout` with the
mobile-money payload and messages. -/
def create_mobile_payout (net : Network) (timestamp random_num : Nat) (amount : PyFloat)
    (mobile_number : String) : Except PyExn Json :=
  let charge_id := generate_reference "mobile_payout" timestamp random_num
  let payload := mobile_payout_payload amount charge_id mobile_number
  match make_request net "POST" "/direct-charge/payouts/initialize" (some payload) with
  | .error e => .error e
  | .ok response =>
    match (if (response.item "success").truthy then
             match (response.item "data").get "status" with
             | .error e => (.error e : Except PyExn Bool)
             | .ok s => .ok (s.eqStr "success")
           else .ok false) with
    | .error e => .error e
    | .ok cond =>
      if cond then
        match (response.item "data").getD "data" (.obj []) with
        | .error e => .error e
        | .ok dd =>
          match dd.getD "transaction" (.obj []) with
          | .error e => .error e
          | .ok transaction =>
            match transaction.get "ref_id" with
            | .error e => .error e
            | .ok rid =>
              match transaction.get "status" with
              | .error e => .error e
              | .ok st =>
                .ok (.obj [("success", .bool true),
                           ("ref_id", rid),
                           ("status", st),
                           ("charge_id", .str charge_id),
                           ("message", .str "Mobile payout created successfully")])
      else
        match (response.item "data").getD "message" (.str "Mobile payout failed") with
        | .error e => .error e
        | .ok msg =>
          .ok (.obj [("success", .bool false),
                     ("message", msg),
                     ("charge_id", .str charge_id)])

/-- `verify_payout(ref_id)`.  Note that a missing `status` in the
`data.data` mapping is surfaced as `None` (`Json.null`), with no
`"unknown"` default; a non-mapping `data.data` makes `data.get("status")`
raise. -/
def verify_payout (net : Network) (ref_id : String) : Except PyExn Json :=
  match make_request net "GET" ("/direct-charge/payouts/verify/" ++ ref_id) none with
  | .error e => .error e
  | .ok response =>
    if (response.item "success").truthy then
      match (response.item "data").getD "data" (.obj []) with
      | .error e => .error e
      | .ok data =>
        match data.get "status" with
        | .error e => .error e
        | .ok st =>
          .ok (.obj [("success", .bool true),
                     ("status", st),
                     ("details", data)])
    else
      .ok (.obj [("success", .bool false),
                 ("message", .str "Payout verification failed")])

/-- A network on which every request raises a connection error. -/
def failNet : Network :=
  { get := fun _ => .exn "Connection refused"
    post := fun _ _ => .exn "Connection refused" }

/-- A network answering every request with the same fixed outcome. -/
def constNet (r : NetResult) : Network :=
  { get := fun _ => r, post := fun _ _ => r }

/-- A remote body reporting a successfully created checkout session. -/
def successPaymentBody : Json :=
  .obj [("status", .str "success"),
        ("data", .obj [("checkout_url", .str "https://pay/x")])]

/-- A network answering every request with HTTP 200 and
`successPaymentBody`. -/
def successPaymentNet : Network :=
  constNet (.resp ⟨200, "nonempty", .ok successPaymentBody⟩)

/-- A network answering every request with HTTP 200 and a body that is not
valid JSON, so that `response.json()` raises. -/
def badJsonNet : Network :=
  constNet (.resp ⟨200, "not json", .error "Expecting value: line 1 column 1 (char 0)"⟩)

/-- A network answering every request with HTTP 200 and a body whose
nested `data` object has no `status` key. -/
def noStatusNet : Network :=
  constNet (.resp ⟨200, "nonempty", .ok (.obj [("data", .obj [("amount", .str "5")])])⟩)

/-- A network answering every request with HTTP 200 and a body that is a
JSON array, not an object. -/
def arrayBodyNet : Network :=
  constNet (.resp ⟨200, "nonempty", .ok (.arr [.num 1])⟩)

/-- A network answering every request with HTTP 200 and an object body
whose `data` value is the number 5, not an object. -/
def numDataNet : Network :=
  constNet (.resp ⟨200, "nonempty", .ok (.obj [("data", .num 5)])⟩)

/-- A method outcome that is either a returned mapping carrying a boolean
`success` field, or an escaped `AttributeError` (raised by a `.get` on a
non-mapping part of the parsed body). -/
def returnsSuccessMapping (r : Except PyExn Json) : Prop :=
  (∃ j b, r = .ok j ∧ j.lookup "success" = some (.bool b))
  ∨ (∃ t, r = .error (.attributeError t))

/-! ## Helper lemmas -/

theorem digitChar_isDigit (m : Nat) (h : m < 10) : (Nat.digitChar m).isDigit = true := by
  interval_cases m <;> decide

theorem toDigitsCore_all_digits (f : Nat) : ∀ (n : Nat) (ds : List Char),
    (∀ c ∈ ds, c.isDigit = true) →
    ∀ c ∈ Nat.toDigitsCore 10 f n ds, c.isDigit = true := by
  induction f with
  | zero => intro n ds hds; simpa [Nat.toDigitsCore] using hds
  | succ f ih =>
    intro n ds hds
    simp only [Nat.toDigitsCore]
    have hcons : ∀ c ∈ Nat.digitChar (n % 10) :: ds, c.isDigit = true := by
      intro c hc
      rcases List.mem_cons.mp hc with rfl | hc
      · exact digitChar_isDigit _ (Nat.mod_lt _ (by norm_num))
      · exact hds c hc
    split
    · exact hcons
    · exact ih _ _ hcons

theorem toDigitsCore_length_eq (f : Nat) : ∀ (n : Nat) (ds : List Char), n < f →
    (Nat.toDigitsCore 10 f n ds).length = ds.length + Nat.log 10 n + 1 := by
  induction f with
  | zero => intro n ds h; exact absurd h (Nat.not_lt_zero n)
  | succ f ih =>
    intro n ds h
    simp only [Nat.toDigitsCore]
    split
    · rename_i h0
      have hn : n < 10 := by
        rcases Nat.lt_or_ge n 10 with h10 | h10
        · exact h10
        · exact absurd h0 (by
            have : 0 < n / 10 := Nat.div_pos h10 (by norm_num)
            omega)
      have : Nat.log 10 n = 0 := Nat.log_eq_zero_iff.mpr (Or.inl hn)
      simp [this]
    · rename_i h0
      have h10 : 10 ≤ n := by
        rcases Nat.lt_or_ge n 10 with h10 | h10
        · exact absurd (Nat.div_eq_of_lt h10) h0
        · exact h10
      have hlt : n / 10 < f := by
        have := Nat.div_lt_self (by omega : 0 < n) (by norm_num : 1 < 10)
        omega
      rw [ih (n / 10) _ hlt]
      have hdiv := Nat.log_div_base 10 n
      have hpos : 0 < Nat.log 10 n := Nat.log_pos (by norm_num) h10
      simp only [List.length_cons]
      omega

theorem repr_length_eq (n : Nat) : (Nat.repr n).length = Nat.log 10 n + 1 := by
  have h : (Nat.repr n).length = (Nat.toDigitsCore 10 (n + 1) n []).length := rfl
  rw [h, toDigitsCore_length_eq (n + 1) n [] (Nat.lt_succ_self n)]
  simp

theorem repr_all_digits (n : Nat) : ∀ c ∈ (Nat.repr n).toList, c.isDigit = true := by
  have h : (Nat.repr n).toList = Nat.toDigitsCore 10 (n + 1) n [] := rfl
  rw [h]
  exact toDigitsCore_all_digits (n + 1) n [] (by simp)

theorem getD_error_shape (j : Json) (k : String) (d : Json) (e : PyExn)
    (h : j.getD k d = .error e) : ∃ t, e = .attributeError t := by
  cases j <;> simp [Json.getD, Json.typeName] at h <;> exact ⟨_, h.symm⟩

theorem get_error_shape (j : Json) (k : String) (e : PyExn)
    (h : j.get k = .error e) : ∃ t, e = .attributeError t :=
  getD_error_shape j k .null e h

theorem make_request_get_eq (net : Network) (endpoint : String) (d : Option Json) :
    make_request net "GET" endpoint d
      = .ok (responseEnvelope (net.get (base_url ++ endpoint))) := rfl

theorem make_request_post_eq (net : Network) (endpoint : String) (d : Option Json) :
    make_request net "POST" endpoint d
      = .ok (responseEnvelope (net.post (base_url ++ endpoint) d)) := rfl

/-! ## Claims -/

/-- C4: for every prefix, the generated transaction reference is the
prefix, an underscore, the Unix timestamp in decimal digits, an
underscore, and the random integer drawn from [100000, 999999], which
always renders as exactly 6 decimal digits. -/
theorem generate_reference_pattern (pfx : String) (ts r : Nat)
    (h1 : 100000 ≤ r) (h2 : r ≤ 999999) :
    generate_reference pfx ts r = pfx ++ "_" ++ ts.repr ++ "_" ++ r.repr
    ∧ (∀ c ∈ ts.repr.toList, c.isDigit = true)
    ∧ r.repr.length = 6
    ∧ (∀ c ∈ r.repr.toList, c.isDigit = true) := by
  refine ⟨rfl, repr_all_digits ts, ?_, repr_all_digits r⟩
  rw [repr_length_eq]
  have h5 : Nat.log 10 r = 5 :=
    Nat.log_eq_of_pow_le_of_lt_pow (by norm_num; omega) (by norm_num; omega)
  omega

/-- C4 witness: the reference generated at timestamp 1700000000 with
random draw 123456 under prefix "payment". -/
theorem generate_reference_pattern_witness :
    (100000 ≤ 123456 ∧ 123456 ≤ 999999)
    ∧ (generate_reference "payment" 1700000000 123456
          = "payment" ++ "_" ++ (1700000000 : Nat).repr ++ "_" ++ (123456 : Nat).repr
        ∧ (∀ c ∈ (1700000000 : Nat).repr.toList, c.isDigit = true)
        ∧ (123456 : Nat).repr.length = 6
        ∧ (∀ c ∈ (123456 : Nat).repr.toList, c.isDigit = true)) :=
  ⟨⟨by decide, by decide⟩,
   generate_reference_pattern "payment" 1700000000 123456 (by decide) (by decide)⟩

/-- C7: for every HTTP method other than GET and POST, the transport
primitive raises `ValueError` to the caller (`Except.error`), and its
outcome does not depend on the network at all — no network call is
observed. -/
theorem make_request_unsupported_method (net : Network) (method endpoint : String)
    (data : Option Json) (hg : method ≠ "GET") (hp : method ≠ "POST") :
    make_request net method endpoint data
      = .error (.valueError ("Unsupported method: " ++ method))
    ∧ ∀ net2 : Network, make_request net2 method endpoint data
        = make_request net method endpoint data := by
  constructor
  · simp [make_request, hg, hp]
  · intro net2
    simp [make_request, hg, hp]

/-- C7 witness: a PUT request fails with `ValueError` on the failing
network, independently of the network. -/
theorem make_request_unsupported_method_witness :
    ("PUT" ≠ "GET" ∧ "PUT" ≠ "POST")
    ∧ (make_request failNet "PUT" "/payment" none
          = .error (.valueError ("Unsupported method: " ++ "PUT"))
        ∧ ∀ net2 : Network, make_request net2 "PUT" "/payment" none
            = make_request failNet "PUT" "/payment" none) :=
  ⟨⟨by decide, by decide⟩,
   make_request_unsupported_method failNet "PUT" "/payment" none (by decide) (by decide)⟩

/-- C1 (amended): each of the five dict-returning operations —
create_payment, verify_payment, create_bank_payout, create_mobile_payout,
verify_payout — either returns a mapping containing a boolean `success`
field (on both success and failure), or lets an `AttributeError` escape
when a `.get` in it hits a non-mapping part of the parsed body. -/
theorem public_ops_success_field (net : Network) (ts rnd : Nat) (amount : PyFloat)
    (email fn ln cb ru currency tx ref_id bank_uuid an anum mobile : String)
    (description : Option String) (rp rv rb rm ro : Json)
    (h1 : responseEnvelope (net.post (base_url ++ "/payment")
        (some (payment_payload amount currency email fn ln cb ru
          (generate_reference "payment" ts rnd) description))) = rp)
    (h2 : responseEnvelope (net.get (base_url ++ ("/payment/verify/" ++ tx))) = rv)
    (h3 : responseEnvelope (net.post (base_url ++ "/direct-charge/payouts/initialize")
        (some (bank_payout_payload amount bank_uuid an anum
          (generate_reference "bank_payout" ts rnd)))) = rb)
    (h4 : responseEnvelope (net.post (base_url ++ "/direct-charge/payouts/initialize")
        (some (mobile_payout_payload amount
          (generate_reference "mobile_payout" ts rnd) mobile))) = rm)
    (h5 : responseEnvelope (net.get (base_url ++
        ("/direct-charge/payouts/verify/" ++ ref_id))) = ro) :
    returnsSuccessMapping (create_payment net ts rnd amount email fn ln cb ru
      currency description)
    ∧ returnsSuccessMapping (verify_payment net tx)
    ∧ returnsSuccessMapping (create_bank_payout net ts rnd amount bank_uuid an anum)
    ∧ returnsSuccessMapping (create_mobile_payout net ts rnd amount mobile)
    ∧ returnsSuccessMapping (verify_payout net ref_id) := by
  refine ⟨?_, ?_, ?_, ?_, ?_⟩
  · cases htr : (rp.item "success").truthy with
    | false =>
      rcases hm : (rp.item "data").getD "message" (.str "Payment creation failed")
        with e | msg
      · obtain ⟨t, ht⟩ := getD_error_shape _ _ _ _ hm
        refine Or.inr ⟨t, ?_⟩
        rw [← ht]
        simp [create_payment, make_request_post_eq, h1, htr, hm]
      · refine Or.inl ⟨.obj [("success", .bool false), ("message", msg),
          ("tx_ref", .str (generate_reference "payment" ts rnd))], false, ?_, rfl⟩
        simp [create_payment, make_request_post_eq, h1, htr, hm]
    | true =>
      rcases hs : (rp.item "data").get "status" with e | s
      · obtain ⟨t, ht⟩ := get_error_shape _ _ _ hs
        refine Or.inr ⟨t, ?_⟩
        rw [← ht]
        simp [create_payment, make_request_post_eq, h1, htr, hs]
      · cases hc : s.eqStr "success" with
        | false =>
          rcases hm : (rp.item "data").getD "message" (.str "Payment creation failed")
            with e | msg
          · obtain ⟨t, ht⟩ := getD_error_shape _ _ _ _ hm
            refine Or.inr ⟨t, ?_⟩
            rw [← ht]
            simp [create_payment, make_request_post_eq, h1, htr, hs, hc, hm]
          · refine Or.inl ⟨.obj [("success", .bool false), ("message", msg),
              ("tx_ref", .str (generate_reference "payment" ts rnd))], false, ?_, rfl⟩
            simp [create_payment, make_request_post_eq, h1, htr, hs, hc, hm]
        | true =>
          rcases hd : (rp.item "data").getD "data" (.obj []) with e | cd
          · obtain ⟨t, ht⟩ := getD_error_shape _ _ _ _ hd
            refine Or.inr ⟨t, ?_⟩
            rw [← ht]
            simp [create_payment, make_request_post_eq, h1, htr, hs, hc, hd]
          · rcases hcu : cd.get "checkout_url" with e | cu
            · obtain ⟨t, ht⟩ := get_error_shape _ _ _ hcu
              refine Or.inr ⟨t, ?_⟩
              rw [← ht]
              simp [create_payment, make_request_post_eq, h1, htr, hs, hc, hd, hcu]
            · refine Or.inl ⟨.obj [("success", .bool true), ("checkout_url", cu),
                ("tx_ref", .str (generate_reference "payment" ts rnd)),
                ("message", .str "Payment created successfully")], true, ?_, rfl⟩
              simp [create_payment, make_request_post_eq, h1, htr, hs, hc, hd, hcu]
  · cases htr : (rv.item "success").truthy with
    | false =>
      exact Or.inl ⟨.obj [("success", .bool false),
        ("message", .str "Payment verification failed")], false,
        by simp [verify_payment, make_request_get_eq, h2, htr], rfl⟩
    | true =>
      rcases hd : (rv.item "data").getD "data" (.obj []) with e | d
      · obtain ⟨t, ht⟩ := getD_error_shape _ _ _ _ hd
        refine Or.inr ⟨t, ?_⟩
        rw [← ht]
        simp [verify_payment, make_request_get_eq, h2, htr, hd]
      · rcases hst : d.getD "status" (.str "unknown") with e | st
        · obtain ⟨t, ht⟩ := getD_error_shape _ _ _ _ hst
          refine Or.inr ⟨t, ?_⟩
          rw [← ht]
          simp [verify_payment, make_request_get_eq, h2, htr, hd, hst]
        · refine Or.inl ⟨.obj [("success", .bool true), ("data", d), ("status", st)],
            true, ?_, rfl⟩
          simp [verify_payment, make_request_get_eq, h2, htr, hd, hst]
  · cases htr : (rb.item "success").truthy with
    | false =>
      rcases hm : (rb.item "data").getD "message" (.str "Bank payout failed")
        with e | msg
      · obtain ⟨t, ht⟩ := getD_error_shape _ _ _ _ hm
        refine Or.inr ⟨t, ?_⟩
        rw [← ht]
        simp [create_bank_payout, make_request_post_eq, h3, htr, hm]
      · refine Or.inl ⟨.obj [("success", .bool false), ("message", msg),
          ("charge_id", .str (generate_reference "bank_payout" ts rnd))], false, ?_, rfl⟩
        simp [create_bank_payout, make_request_post_eq, h3, htr, hm]
    | true =>
      rcases hs : (rb.item "data").get "status" with e | s
      · obtain ⟨t, ht⟩ := get_error_shape _ _ _ hs
        refine Or.inr ⟨t, ?_⟩
        rw [← ht]
        simp [create_bank_payout, make_request_post_eq, h3, htr, hs]
      · cases hc : s.eqStr "success" with
        | false =>
          rcases hm : (rb.item "data").getD "message" (.str "Bank payout failed")
            with e | msg
          · obtain ⟨t, ht⟩ := getD_error_shape _ _ _ _ hm
            refine Or.inr ⟨t, ?_⟩
            rw [← ht]
            simp [create_bank_payout, make_request_post_eq, h3, htr, hs, hc, hm]
          · refine Or.inl ⟨.obj [("success", .bool false), ("message", msg),
              ("charge_id", .str (generate_reference "bank_payout" ts rnd))],
              false, ?_, rfl⟩
            simp [create_bank_payout, make_request_post_eq, h3, htr, hs, hc, hm]
        | true =>
          rcases hd : (rb.item "data").getD "data" (.obj []) with e | dd
          · obtain ⟨t, ht⟩ := getD_error_shape _ _ _ _ hd
            refine Or.inr ⟨t, ?_⟩
            rw [← ht]
            simp [create_bank_payout, make_request_post_eq, h3, htr, hs, hc, hd]
          · rcases htx : dd.getD "transaction" (.obj []) with e | tr
            · obtain ⟨t, ht⟩ := getD_error_shape _ _ _ _ htx
              refine Or.inr ⟨t, ?_⟩
              rw [← ht]
              simp [create_bank_payout, make_request_post_eq, h3, htr, hs, hc, hd, htx]
            · rcases hr : tr.get "ref_id" with e | rid
              · obtain ⟨t, ht⟩ := get_error_shape _ _ _ hr
                refine Or.inr ⟨t, ?_⟩
                rw [← ht]
                simp [create_bank_payout, make_request_post_eq, h3, htr, hs, hc, hd,
                  htx, hr]
              · rcases hst : tr.get "status" with e | st
                · obtain ⟨t, ht⟩ := get_error_shape _ _ _ hst
                  refine Or.inr ⟨t, ?_⟩
                  rw [← ht]
                  simp [create_bank_payout, make_request_post_eq, h3, htr, hs, hc, hd,
                    htx, hr, hst]
                · refine Or.inl ⟨.obj [("success", .bool true), ("ref_id", rid),
                    ("status", st),
                    ("charge_id", .str (generate_reference "bank_payout" ts rnd)),
                    ("message", .str "Bank payout created successfully")],
                    true, ?_, rfl⟩
                  simp [create_bank_payout, make_request_post_eq, h3, htr, hs, hc, hd,
                    htx, hr, hst]
  · cases htr : (rm.item "success").truthy with
    | false =>
      rcases hm : (rm.item "data").getD "message" (.str "Mobile payout failed")
        with e | msg
      · obtain ⟨t, ht⟩ := getD_error_shape _ _ _ _ hm
        refine Or.inr ⟨t, ?_⟩
        rw [← ht]
        simp [create_mobile_payout, make_request_post_eq, h4, htr, hm]
      · refine Or.inl ⟨.obj [("success", .bool false), ("message", msg),
          ("charge_id", .str (generate_reference "mobile_payout" ts rnd))],
          false, ?_, rfl⟩
        simp [create_mobile_payout, make_request_post_eq, h4, htr, hm]
    | true =>
      rcases hs : (rm.item "data").get "status" with e | s
      · obtain ⟨t, ht⟩ := get_error_shape _ _ _ hs
        refine Or.inr ⟨t, ?_⟩
        rw [← ht]
        simp [create_mobile_payout, make_request_post_eq, h4, htr, hs]
      · cases hc : s.eqStr "success" with
        | false =>
          rcases hm : (rm.item "data").getD "message" (.str "Mobile payout failed")
            with e | msg
          · obtain ⟨t, ht⟩ := getD_error_shape _ _ _ _ hm
            refine Or.inr ⟨t, ?_⟩
            rw [← ht]
            simp [create_mobile_payout, make_request_post_eq, h4, htr, hs, hc, hm]
          · refine Or.inl ⟨.obj [("success", .bool false), ("message", msg),
              ("charge_id", .str (generate_reference "mobile_payout" ts rnd))],
              false, ?_, rfl⟩
            simp [create_mobile_payout, make_request_post_eq, h4, htr, hs, hc, hm]
        | true =>
          rcases hd : (rm.item "data").getD "data" (.obj []) with e | dd
          · obtain ⟨t, ht⟩ := getD_error_shape _ _ _ _ hd
            refine Or.inr ⟨t, ?_⟩
            rw [← ht]
            simp [create_mobile_payout, make_request_post_eq, h4, htr, hs, hc, hd]
          · rcases htx : dd.getD "transaction" (.obj []) with e | tr
            · obtain ⟨t, ht⟩ := getD_error_shape _ _ _ _ htx
              refine Or.inr ⟨t, ?_⟩
              rw [← ht]
              simp [create_mobile_payout, make_request_post_eq, h4, htr, hs, hc, hd, htx]
            · rcases hr : tr.get "ref_id" with e | rid
              · obtain ⟨t, ht⟩ := get_error_shape _ _ _ hr
                refine Or.inr ⟨t, ?_⟩
                rw [← ht]
                simp [create_mobile_payout, make_request_post_eq, h4, htr, hs, hc, hd,
                  htx, hr]
              · rcases hst : tr.get "status" with e | st
                · obtain ⟨t, ht⟩ := get_error_shape _ _ _ hst
                  refine Or.inr ⟨t, ?_⟩
                  rw [← ht]
                  simp [create_mobile_payout, make_request_post_eq, h4, htr, hs, hc, hd,
                    htx, hr, hst]
                · refine Or.inl ⟨.obj [("success", .bool true), ("ref_id", rid),
                    ("status", st),
                    ("charge_id", .str (generate_reference "mobile_payout" ts rnd)),
                    ("message", .str "Mobile payout created successfully")],
                    true, ?_, rfl⟩
                  simp [create_mobile_payout, make_request_post_eq, h4, htr, hs, hc, hd,
                    htx, hr, hst]
  · cases htr : (ro.item "success").truthy with
    | false =>
      exact Or.inl ⟨.obj [("success", .bool false),
        ("message", .str "Payout verification failed")], false,
        by simp [verify_payout, make_request_get_eq, h5, htr], rfl⟩
    | true =>
      rcases hd : (ro.item "data").getD "data" (.obj []) with e | d
      · obtain ⟨t, ht⟩ := getD_error_shape _ _ _ _ hd
        refine Or.inr ⟨t, ?_⟩
        rw [← ht]
        simp [verify_payout, make_request_get_eq, h5, htr, hd]
      · rcases hst : d.get "status" with e | st
        · obtain ⟨t, ht⟩ := get_error_shape _ _ _ hst
          refine Or.inr ⟨t, ?_⟩
          rw [← ht]
          simp [verify_payout, make_request_get_eq, h5, htr, hd, hst]
        · refine Or.inl ⟨.obj [("success", .bool true), ("status", st), ("details", d)],
            true, ?_, rfl⟩
          simp [verify_payout, make_request_get_eq, h5, htr, hd, hst]

/-- C1 witness: on the failing network every one of the five operations
returns its failure mapping, which carries the `success` field. -/
theorem public_ops_success_field_witness :
    returnsSuccessMapping (create_payment failNet 1 2 ⟨"1.0"⟩ "e" "f" "l" "cb" "ru"
      "MWK" none)
    ∧ returnsSuccessMapping (verify_payment failNet "tx")
    ∧ returnsSuccessMapping (create_bank_payout failNet 1 2 ⟨"1.0"⟩ "bu" "an" "anum")
    ∧ returnsSuccessMapping (create_mobile_payout failNet 1 2 ⟨"1.0"⟩ "0881234567")
    ∧ returnsSuccessMapping (verify_payout failNet "r1") :=
  public_ops_success_field failNet 1 2 ⟨"1.0"⟩ "e" "f" "l" "cb" "ru" "MWK" "tx" "r1"
    "bu" "an" "anum" "0881234567" none _ _ _ _ _ rfl rfl rfl rfl rfl

/-- C1 counterexample: `get_banks` is a public operation, yet on a
transport failure it returns the bare list `[]`, which is not a mapping
and carries no `success` field. -/
theorem get_banks_no_success_field :
    get_banks failNet "MWK" = .ok (.arr [])
    ∧ ¬ ∃ b : Bool, (Json.arr []).lookup "success" = some (.bool b) := by
  refine ⟨rfl, ?_⟩
  rintro ⟨b, h⟩
  simp [Json.lookup] at h

/-- C2 (amended): for a GET or POST, the transport primitive never lets an
exception reach the caller; a network exception yields
`success=false`/`error`/empty `data`; a received response with an empty
body yields `success=(status ∈ 200,201)`, the status code, empty `data`
and the raw text; likewise with the parsed body as `data` when the body
parses; a non-empty unparsable body raises a JSON decode error that is
caught by the same handler, yielding `success=false`/`error`/empty `data`. -/
theorem make_request_transport_contract (net : Network) (method endpoint : String)
    (d : Option Json) (r : NetResult)
    (hm : (method = "GET" ∧ net.get (base_url ++ endpoint) = r)
        ∨ (method = "POST" ∧ net.post (base_url ++ endpoint) d = r)) :
    make_request net method endpoint d = .ok (responseEnvelope r)
    ∧ (∀ e, r = .exn e → responseEnvelope r
        = .obj [("success", .bool false), ("error", .str e), ("data", .obj [])])
    ∧ (∀ hr : HttpResponse, r = .resp hr → hr.text = "" →
        responseEnvelope r
          = .obj [("success", .bool (hr.status_code == 200 || hr.status_code == 201)),
                  ("status_code", .num hr.status_code),
                  ("data", .obj []),
                  ("raw_response", .str hr.text)])
    ∧ (∀ hr body, r = .resp hr → hr.text ≠ "" → hr.jsonBody = .ok body →
        responseEnvelope r
          = .obj [("success", .bool (hr.status_code == 200 || hr.status_code == 201)),
                  ("status_code", .num hr.status_code),
                  ("data", body),
                  ("raw_response", .str hr.text)])
    ∧ (∀ hr e, r = .resp hr → hr.text ≠ "" → hr.jsonBody = .error e →
        responseEnvelope r
          = .obj [("success", .bool false), ("error", .str e), ("data", .obj [])]) := by
  refine ⟨?_, ?_, ?_, ?_, ?_⟩
  · rcases hm with ⟨hmeq, hcall⟩ | ⟨hmeq, hcall⟩
    · subst hmeq; rw [make_request_get_eq, hcall]
    · subst hmeq; rw [make_request_post_eq, hcall]
  · rintro e rfl; rfl
  · rintro hr rfl htext
    simp [responseEnvelope, htext]
  · rintro hr body rfl htext hjson
    simp [responseEnvelope, htext, hjson]
  · rintro hr e rfl htext hjson
    simp [responseEnvelope, htext, hjson]

/-- C2 witness: a GET on the failing network produces the caught-exception
envelope instead of raising. -/
theorem make_request_transport_contract_witness :
    ("GET" = "GET" ∧ failNet.get (base_url ++ "/payment/verify/t") = .exn "Connection refused")
    ∧ make_request failNet "GET" "/payment/verify/t" none
        = .ok (responseEnvelope (.exn "Connection refused")) :=
  ⟨⟨rfl, rfl⟩,
   (make_request_transport_contract failNet "GET" "/payment/verify/t" none
      (.exn "Connection refused") (Or.inl ⟨rfl, rfl⟩)).1⟩

/-- C2 counterexample: an HTTP 200 response whose non-empty body is not
valid JSON does not produce the claimed mapping with `success = true`
(status 200), `status_code` and the raw text; the decode error is caught
and the transport-failure envelope is returned instead. -/
theorem make_request_unparsable_body_not_transport_success :
    make_request badJsonNet "GET" "/payment/verify/x" none
      = .ok (.obj [("success", .bool false),
                   ("error", .str "Expecting value: line 1 column 1 (char 0)"),
                   ("data", .obj [])])
    ∧ (Json.obj [("success", .bool false),
                 ("error", .str "Expecting value: line 1 column 1 (char 0)"),
                 ("data", .obj [])]).lookup "success" = some (.bool false)
    ∧ (Json.obj [("success", .bool false),
                 ("error", .str "Expecting value: line 1 column 1 (char 0)"),
                 ("data", .obj [])]).lookup "status_code" = none :=
  ⟨rfl, rfl, rfl⟩

/-- C3 (amended): when every `.get` involved succeeds (the parsed body —
and, in the success case, its `data` value — is a mapping),
create_payment returns exactly the four-field success mapping when the
transport succeeded and the body's `status` is `"success"`, and exactly
the three-field failure mapping (body `message`, default "Payment
creation failed", plus the same `tx_ref`) otherwise; a `.get` on a
non-mapping receiver instead raises `AttributeError` to the caller. -/
theorem create_payment_result_contract (net : Network) (ts rnd : Nat)
    (amount : PyFloat) (email fn ln cb ru currency : String)
    (description : Option String) (response : Json)
    (hresp : responseEnvelope (net.post (base_url ++ "/payment")
        (some (payment_payload amount currency email fn ln cb ru
          (generate_reference "payment" ts rnd) description))) = response) :
    (∀ s cd cu, (response.item "success").truthy = true →
      (response.item "data").get "status" = .ok s →
      s.eqStr "success" = true →
      (response.item "data").getD "data" (.obj []) = .ok cd →
      cd.get "checkout_url" = .ok cu →
      create_payment net ts rnd amount email fn ln cb ru currency description
        = .ok (.obj [("success", .bool true),
            ("checkout_url", cu),
            ("tx_ref", .str (generate_reference "payment" ts rnd)),
            ("message", .str "Payment created successfully")]))
    ∧ (∀ msg, ((response.item "success").truthy = false
        ∨ (∃ s, (response.item "data").get "status" = .ok s
            ∧ s.eqStr "success" = false)) →
      (response.item "data").getD "message" (.str "Payment creation failed") = .ok msg →
      create_payment net ts rnd amount email fn ln cb ru currency description
        = .ok (.obj [("success", .bool false),
            ("message", msg),
            ("tx_ref", .str (generate_reference "payment" ts rnd))])) := by
  constructor
  · intro s cd cu htr hs hsx hd hcu
    simp [create_payment, make_request_post_eq, hresp, htr, hs, hsx, hd, hcu]
  · intro msg hor hm
    rcases hor with htr | ⟨s, hs, hsx⟩
    · simp [create_payment, make_request_post_eq, hresp, htr, hm]
    · cases htr2 : (response.item "success").truthy <;>
        simp [create_payment, make_request_post_eq, hresp, htr2, hs, hsx, hm]

/-- C3 witness: against a network answering HTTP 200 with a successful
checkout body, create_payment returns the exact success mapping. -/
theorem create_payment_result_contract_witness :
    create_payment successPaymentNet 1700000000 123456 ⟨"1000.0"⟩ "a@b.c" "Jo" "Do"
        "https://cb" "https://ret" "MWK" none
      = .ok (.obj [("success", .bool true),
          ("checkout_url", .str "https://pay/x"),
          ("tx_ref", .str (generate_reference "payment" 1700000000 123456)),
          ("message", .str "Payment created successfully")]) :=
  (create_payment_result_contract successPaymentNet 1700000000 123456 ⟨"1000.0"⟩
    "a@b.c" "Jo" "Do" "https://cb" "https://ret" "MWK" none _ rfl).1
    (.str "success") (.obj [("checkout_url", .str "https://pay/x")])
    (.str "https://pay/x") rfl rfl rfl rfl rfl

/-- C3 counterexample: on an HTTP 200 response whose body is the JSON
array [1], the claim as stated requires the three-field failure mapping,
but create_payment raises `AttributeError` (the list has no `.get`). -/
theorem create_payment_array_body_raises :
    create_payment arrayBodyNet 1 2 ⟨"1000.0"⟩ "a@b.c" "Jo" "Do" "https://cb"
        "https://ret" "MWK" none
      = .error (.attributeError "list") := rfl

/-- C5: the mobile payout payload carries the Airtel Money provider
identifier exactly when the mobile number starts with "088" or "+26588",
and the TNM Mpamba identifier for every other number; in particular
"0881234567" selects Airtel Money and "0991234567" selects TNM Mpamba. -/
theorem mobile_payout_provider_selection (amount : PyFloat) (charge_id num : String) :
    ((mobile_payout_payload amount charge_id num).lookup "bank_uuid"
        = some (.str "e8d5fca0-e5ac-4714-a518-484be9011326")
      ↔ (startswith num "088" = true ∨ startswith num "+26588" = true))
    ∧ ((mobile_payout_payload amount charge_id num).lookup "bank_uuid"
        = some (.str "5e9946ae-76ed-43f5-ad59-63e09096006a")
      ↔ ¬(startswith num "088" = true ∨ startswith num "+26588" = true))
    ∧ (mobile_payout_payload amount charge_id "0881234567").lookup "bank_uuid"
        = some (.str "e8d5fca0-e5ac-4714-a518-484be9011326")
    ∧ (mobile_payout_payload amount charge_id "0991234567").lookup "bank_uuid"
        = some (.str "5e9946ae-76ed-43f5-ad59-63e09096006a") := by
  have huuid : ("5e9946ae-76ed-43f5-ad59-63e09096006a" : String)
      ≠ "e8d5fca0-e5ac-4714-a518-484be9011326" := by decide
  have base : ∀ m : String, (mobile_payout_payload amount charge_id m).lookup "bank_uuid"
      = some (.str (if startswith m "088" || startswith m "+26588" then
          "e8d5fca0-e5ac-4714-a518-484be9011326" else
          "5e9946ae-76ed-43f5-ad59-63e09096006a")) := fun _ => rfl
  refine ⟨?_, ?_, rfl, rfl⟩
  · rw [base]
    by_cases hc : startswith num "088" = true ∨ startswith num "+26588" = true
    · have hb : (startswith num "088" || startswith num "+26588") = true := by
        rcases hc with h | h <;> simp [h]
      simp [hb, hc]
    · have hb : (startswith num "088" || startswith num "+26588") = false := by
        rcases not_or.mp hc with ⟨h1, h2⟩
        simp [Bool.eq_false_iff.mpr h1, Bool.eq_false_iff.mpr h2]
      simp [hb, hc, huuid]
  · rw [base]
    by_cases hc : startswith num "088" = true ∨ startswith num "+26588" = true
    · have hb : (startswith num "088" || startswith num "+26588") = true := by
        rcases hc with h | h <;> simp [h]
      simp [hb, hc, huuid.symm]
    · have hb : (startswith num "088" || startswith num "+26588") = false := by
        rcases not_or.mp hc with ⟨h1, h2⟩
        simp [Bool.eq_false_iff.mpr h1, Bool.eq_false_iff.mpr h2]
      simp [hb, hc]

/-- C5 witness: the payload for the Airtel-prefixed number "0881234567". -/
theorem mobile_payout_provider_selection_witness :
    (mobile_payout_payload ⟨"500.0"⟩ "mobile_payout_1_100000" "0881234567").lookup "bank_uuid"
      = some (.str "e8d5fca0-e5ac-4714-a518-484be9011326") :=
  (mobile_payout_provider_selection ⟨"500.0"⟩ "mobile_payout_1_100000" "0881234567").2.2.1

/-- C6 (amended): get_banks returns the value at `data.data` on transport
success with a mapping body, and the empty list both when the transport
fails (success flag falsy — no body access happens on that path) and when
the transport succeeds with a mapping body lacking the `data` key, the
two empty results being the same value, indistinguishable to the caller;
on a non-mapping body the `.get` raises `AttributeError` instead. -/
theorem get_banks_contract (net : Network) (currency : String) (response : Json)
    (hresp : responseEnvelope (net.get (base_url ++
        ("/direct-charge/payouts/supported-banks?currency=" ++ currency))) = response) :
    ((response.item "success").truthy = false → get_banks net currency = .ok (.arr []))
    ∧ (∀ kvs, (response.item "success").truthy = true →
        response.item "data" = .obj kvs →
        kvs.lookup "data" = none →
        get_banks net currency = .ok (.arr []))
    ∧ (∀ kvs l, (response.item "success").truthy = true →
        response.item "data" = .obj kvs →
        kvs.lookup "data" = some l →
        get_banks net currency = .ok l)
    ∧ (∀ e, (response.item "success").truthy = true →
        (response.item "data").getD "data" (.arr []) = .error e →
        get_banks net currency = .error e) := by
  refine ⟨fun h => ?_, fun kvs h hobj hnone => ?_, fun kvs l h hobj hsome => ?_,
    fun e h herr => ?_⟩
  · simp [get_banks, make_request_get_eq, hresp, h]
  · simp [get_banks, make_request_get_eq, hresp, h, hobj, Json.getD, hnone]
  · simp [get_banks, make_request_get_eq, hresp, h, hobj, Json.getD, hsome]
  · simp [get_banks, make_request_get_eq, hresp, h, herr]

/-- C6 witness: on a network that raises a connection error, get_banks
returns the empty list. -/
theorem get_banks_contract_witness :
    (((responseEnvelope (failNet.get (base_url ++
        ("/direct-charge/payouts/supported-banks?currency=" ++ "MWK")))).item
        "success").truthy = false)
    ∧ get_banks failNet "MWK" = .ok (.arr []) :=
  ⟨rfl, (get_banks_contract failNet "MWK" _ rfl).1 rfl⟩

/-- C6 counterexample: on an HTTP 200 response whose body is the JSON
array [1] — a body with no `data.data` key — the claim as stated requires
the empty list, but get_banks raises `AttributeError` at
`response["data"].get("data", [])`. -/
theorem get_banks_array_body_raises :
    get_banks arrayBodyNet "MWK" = .error (.attributeError "list") := rfl

/-- C8 (amended): on transport success with all `.get` calls succeeding,
verify_payment returns success=true with `data` = the nested `data.data`
value (empty mapping if absent) and `status` = its `status` entry
(default "unknown"); on transport failure exactly the two-field mapping
with the fixed message, dropping the transport error detail; when the
body or its `data` value is not a mapping where `.get` is called on it,
the `AttributeError` escapes instead. -/
theorem verify_payment_contract (net : Network) (tx_ref : String) (response : Json)
    (hresp : responseEnvelope (net.get (base_url ++ ("/payment/verify/" ++ tx_ref)))
      = response) :
    (∀ d st, (response.item "success").truthy = true →
      (response.item "data").getD "data" (.obj []) = .ok d →
      d.getD "status" (.str "unknown") = .ok st →
      verify_payment net tx_ref = .ok (.obj [("success", .bool true),
        ("data", d), ("status", st)]))
    ∧ ((response.item "success").truthy = false →
      verify_payment net tx_ref = .ok (.obj [("success", .bool false),
        ("message", .str "Payment verification failed")]))
    ∧ (∀ e, (response.item "success").truthy = true →
      (response.item "data").getD "data" (.obj []) = .error e →
      verify_payment net tx_ref = .error e)
    ∧ (∀ d e, (response.item "success").truthy = true →
      (response.item "data").getD "data" (.obj []) = .ok d →
      d.getD "status" (.str "unknown") = .error e →
      verify_payment net tx_ref = .error e) := by
  refine ⟨fun d st h hd hst => ?_, fun h => ?_, fun e h herr => ?_,
    fun d e h hd herr => ?_⟩
  · simp [verify_payment, make_request_get_eq, hresp, h, hd, hst]
  · simp [verify_payment, make_request_get_eq, hresp, h]
  · simp [verify_payment, make_request_get_eq, hresp, h, herr]
  · simp [verify_payment, make_request_get_eq, hresp, h, hd, herr]

/-- C8 witness: a connection failure yields exactly the fixed two-field
failure mapping. -/
theorem verify_payment_contract_witness :
    (((responseEnvelope (failNet.get (base_url ++ ("/payment/verify/" ++ "tx1")))).item
        "success").truthy = false)
    ∧ verify_payment failNet "tx1" = .ok (.obj [("success", .bool false),
        ("message", .str "Payment verification failed")]) :=
  ⟨rfl, (verify_payment_contract failNet "tx1" _ rfl).2.1 rfl⟩

/-- C8 counterexample: on an HTTP 200 response with body
`("data": 5)` the claim as stated requires status "unknown", but
verify_payment raises `AttributeError` at `.get("status", "unknown")`
because the nested `data` value is the integer 5, not a mapping. -/
theorem verify_payment_num_data_raises :
    verify_payment numDataNet "tx1" = .error (.attributeError "int") := rfl

/-- C9 (amended): the create_payment payload carries the amount as its
decimal string (never a native number), the currency, the identity and
URL fields, a reference generated with prefix "payment" as tx_ref, and
the customization object exactly when the supplied description is
non-empty (Python truthiness: `None` and `""` both omit it). -/
theorem create_payment_payload_contract (ts rnd : Nat) (amount : PyFloat)
    (email fn ln cb ru currency : String) (description : Option String)
    (p : Json)
    (hp : payment_payload amount currency email fn ln cb ru
        (generate_reference "payment" ts rnd) description = p) :
    p.lookup "amount" = some (.str amount.str)
    ∧ (∀ n : Int, p.lookup "amount" ≠ some (.num n))
    ∧ p.lookup "currency" = some (.str currency)
    ∧ p.lookup "email" = some (.str email)
    ∧ p.lookup "first_name" = some (.str fn)
    ∧ p.lookup "last_name" = some (.str ln)
    ∧ p.lookup "callback_url" = some (.str cb)
    ∧ p.lookup "return_url" = some (.str ru)
    ∧ p.lookup "tx_ref" = some (.str (generate_reference "payment" ts rnd))
    ∧ (∀ s, description = some s → s ≠ "" →
        p.lookup "customization"
          = some (.obj [("title", .str "Payment"), ("description", .str s)]))
    ∧ (description = none → p.lookup "customization" = none)
    ∧ (description = some "" → p.lookup "customization" = none) := by
  subst hp
  rcases description with _ | s
  · refine ⟨rfl, ?_, rfl, rfl, rfl, rfl, rfl, rfl, rfl, ?_, fun _ => rfl, ?_⟩
    · intro n h
      rw [show (payment_payload amount currency email fn ln cb ru
          (generate_reference "payment" ts rnd) none).lookup "amount"
          = some (Json.str amount.str) from rfl] at h
      simp at h
    · intro s h
      exact absurd h (by simp)
    · intro h
      exact absurd h (by simp)
  · by_cases hs : s = ""
    · subst hs
      refine ⟨rfl, ?_, rfl, rfl, rfl, rfl, rfl, rfl, rfl, ?_, ?_, fun _ => rfl⟩
      · intro n h
        rw [show (payment_payload amount currency email fn ln cb ru
            (generate_reference "payment" ts rnd) (some "")).lookup "amount"
            = some (Json.str amount.str) from rfl] at h
        simp at h
      · intro s' h hne
        exact absurd (Option.some.inj h).symm hne
      · intro h
        exact absurd h (by simp)
    · have ht : strTruthy (some s) = true := by simp [strTruthy, hs]
      have hobj : payment_payload amount currency email fn ln cb ru
          (generate_reference "payment" ts rnd) (some s)
          = .obj [("amount", .str amount.str),
                  ("currency", .str currency),
                  ("email", .str email),
                  ("first_name", .str fn),
                  ("last_name", .str ln),
                  ("callback_url", .str cb),
                  ("return_url", .str ru),
                  ("tx_ref", .str (generate_reference "payment" ts rnd)),
                  ("customization", .obj [("title", .str "Payment"),
                                          ("description", .str s)])] := by
        simp [payment_payload, ht]
      rw [hobj]
      refine ⟨rfl, ?_, rfl, rfl, rfl, rfl, rfl, rfl, rfl, ?_, ?_, ?_⟩
      · intro n h
        simp [Json.lookup] at h
      · intro s' h hne
        rw [← Option.some.inj h]
        rfl
      · intro h
        exact absurd h (by simp)
      · intro h
        exact absurd (Option.some.inj h) hs

/-- C9 witness: a non-empty description yields the nested customization
object. -/
theorem create_payment_payload_contract_witness :
    (payment_payload ⟨"1000.0"⟩ "MWK" "a@b.c" "Jo" "Do" "https://cb" "https://ret"
        (generate_reference "payment" 1700000000 123456) (some "Test payment")).lookup
        "customization"
      = some (.obj [("title", .str "Payment"), ("description", .str "Test payment")]) :=
  (create_payment_payload_contract 1700000000 123456 ⟨"1000.0"⟩ "a@b.c" "Jo" "Do"
    "https://cb" "https://ret" "MWK" (some "Test payment") _
    rfl).2.2.2.2.2.2.2.2.2.1 "Test payment" rfl (by decide)

/-- C9 counterexample: a supplied but empty description ("" is falsy in
Python) produces no customization object. -/
theorem payment_payload_empty_description_no_customization :
    (payment_payload ⟨"1000.0"⟩ "MWK" "a@b.c" "Jo" "Do" "https://cb" "https://ret"
        "payment_1_100000" (some "")).lookup "customization" = none := rfl

/-- C10: when verify_payout's transport succeeds and the nested
`data.data` object has no `status` key, the result carries `status =
None` (no "unknown" default), together with the full `data.data` mapping
as `details`; verify_payment in the same situation instead defaults the
status to "unknown". -/
theorem verify_payout_missing_status (net : Network) (ref_id : String) (response : Json)
    (hresp : responseEnvelope (net.get (base_url ++
        ("/direct-charge/payouts/verify/" ++ ref_id))) = response) :
    (∀ kvs, (response.item "success").truthy = true →
      (response.item "data").getD "data" (.obj []) = .ok (.obj kvs) →
      kvs.lookup "status" = none →
      verify_payout net ref_id = .ok (.obj [("success", .bool true),
        ("status", Json.null),
        ("details", .obj kvs)]))
    ∧ (∀ (net2 : Network) (tx : String) (r2 : Json) (kvs2 : List (String × Json)),
        responseEnvelope (net2.get (base_url ++ ("/payment/verify/" ++ tx))) = r2 →
        (r2.item "success").truthy = true →
        (r2.item "data").getD "data" (.obj []) = .ok (.obj kvs2) →
        kvs2.lookup "status" = none →
        verify_payment net2 tx = .ok (.obj [("success", .bool true),
          ("data", .obj kvs2),
          ("status", .str "unknown")])) := by
  constructor
  · intro kvs h hd hstat
    simp only [verify_payout, make_request_get_eq, hresp, h]
    rw [hd]
    simp [Json.get, Json.getD, hstat]
  · intro net2 tx r2 kvs2 h2 hsucc hd hstat
    simp only [verify_payment, make_request_get_eq, h2, hsucc]
    rw [hd]
    simp [Json.getD, hstat]

/-- C10 witness: a 200 response whose `data.data` object lacks `status`
yields a `None` status and the full object as details. -/
theorem verify_payout_missing_status_witness :
    verify_payout noStatusNet "REF1" = .ok (.obj [("success", .bool true),
      ("status", Json.null), ("details", .obj [("amount", .str "5")])]) :=
  (verify_payout_missing_status noStatusNet "REF1" _ rfl).1
    [("amount", .str "5")] rfl rfl rfl

end PayChangu
